/-
  Verification of the FitnessTracker gamification and activity-analytics core.

  Shallow embedding of the pure computations of the repository:
  - rank lookup over the tier table (server/models/User.js, `getLevel`),
  - XP reward preview (client Workout page),
  - calorie estimation for duration- and count-based workouts
    (client Workout page, `calculateEstimatedCalories`),
  - login-time streak correction (server/routes/auth.js),
  - weekly chart bucketing (client Dashboard page, `weeklyChartData`),
  - activity insights (client Dashboard page, `getActivityInsights`),
  together with models of components described by the design document whose
  server-side implementation files are not part of the sources at hand
  (the write-path streak transition and the validating calorie estimator).

  JavaScript numbers are embedded as ℤ / ℚ; `Math.round` is embedded as
  round-half-up on ℚ.
-/
import Mathlib

namespace FitnessTracker

/-- JavaScript `Math.round`: rounds to the nearest integer, halves toward
positive infinity, i.e. `⌊x + 1/2⌋`. -/
def jround (x : ℚ) : ℤ := ⌊x + 1/2⌋

/-! ## Rank tiers (server/models/User.js) -/

/-- One entry of the rank tier table: `{ rank, minXp }`. -/
structure Tier where
  rank : String
  minXp : ℤ
deriving DecidableEq, Repr

/-- The hard-coded `levels` table of `UserSchema.methods.getLevel`. -/
def levels : List Tier :=
  [⟨"E", 0⟩, ⟨"D", 1000⟩, ⟨"C", 2500⟩, ⟨"B", 5000⟩,
   ⟨"A", 10000⟩, ⟨"S", 20000⟩, ⟨"NATIONAL", 50000⟩]

/-- The lookup algorithm of `getLevel`, abstracted over the table:
`[...table].reverse().find(l => xp >= l.minXp) || table[0]`.
(For an empty table the JavaScript expression is `undefined`; the fallback
default is irrelevant for every table considered here.) -/
def rankLookup (table : List Tier) (xp : ℤ) : Tier :=
  (table.reverse.find? (fun l => decide (l.minXp ≤ xp))).getD (table.headD ⟨"E", 0⟩)

/-- `UserSchema.methods.getLevel`: rank lookup on the hard-coded table. -/
def getLevel (xp : ℤ) : Tier := rankLookup levels xp

/-- On a list whose `minXp` fields are weakly descending, `find?` of the
predicate `minXp ≤ xp` returns a member tier satisfying the predicate whose
threshold is greatest among the members satisfying it. -/
theorem find_desc_greatest (xp : ℤ) :
    ∀ (l : List Tier), l.Pairwise (fun a b => b.minXp ≤ a.minXp) →
    ∀ t, l.find? (fun u => decide (u.minXp ≤ xp)) = some t →
    t ∈ l ∧ t.minXp ≤ xp ∧ ∀ u ∈ l, u.minXp ≤ xp → u.minXp ≤ t.minXp := by
  intro l
  induction l with
  | nil => intro _ t ht; simp at ht
  | cons h tl ih =>
    intro hp t ht
    rw [List.pairwise_cons] at hp
    by_cases hh : h.minXp ≤ xp
    · rw [List.find?_cons_of_pos _ (by simpa using hh)] at ht
      cases ht
      refine ⟨List.mem_cons_self _ _, hh, ?_⟩
      intro u hu _
      rcases List.mem_cons.mp hu with rfl | hu
      · exact le_refl _
      · exact hp.1 u hu
    · rw [List.find?_cons_of_neg _ (by simpa using hh)] at ht
      obtain ⟨hmem, hle, hgr⟩ := ih hp.2 t ht
      refine ⟨List.mem_cons_of_mem _ hmem, hle, ?_⟩
      intro u hu hule
      rcases List.mem_cons.mp hu with rfl | hu
      · exact absurd hule hh
      · exact hgr u hu hule

/-- The scenario tier table of the design document:
`[{base,0},{D,1000},{C,2500}]`. -/
def specTierTable : List Tier := [⟨"base", 0⟩, ⟨"D", 1000⟩, ⟨"C", 2500⟩]

/-- C1: for every XP value `x ≥ 0` and every ordered tier table (ascending
thresholds, zero-threshold base tier at the head), the rank lookup returns
exactly one tier, a member of the table, namely one whose threshold is the
greatest threshold not exceeding `x`. -/
theorem rankLookup_greatest_threshold
    (table : List Tier) (hs : table.Pairwise (fun a b => a.minXp < b.minXp))
    (t0 : Tier) (h0 : table.head? = some t0) (h00 : t0.minXp = 0)
    (xp : ℤ) (hxp : 0 ≤ xp) :
    rankLookup table xp ∈ table ∧ (rankLookup table xp).minXp ≤ xp ∧
      ∀ u ∈ table, u.minXp ≤ xp → u.minXp ≤ (rankLookup table xp).minXp := by
  have ht0 : t0 ∈ table := List.mem_of_mem_head? (Option.mem_def.mpr h0)
  cases hfind : table.reverse.find? (fun l => decide (l.minXp ≤ xp)) with
  | none =>
    exfalso
    have := List.find?_eq_none.mp hfind t0 (List.mem_reverse.mpr ht0)
    simp only [decide_eq_true_eq] at this
    exact this (h00 ▸ hxp)
  | some t =>
    have hrev : table.reverse.Pairwise (fun a b => b.minXp ≤ a.minXp) :=
      List.pairwise_reverse.mpr (hs.imp (fun h => le_of_lt h))
    obtain ⟨hmem, hle, hgr⟩ := find_desc_greatest xp table.reverse hrev t hfind
    have hlook : rankLookup table xp = t := by simp [rankLookup, hfind]
    rw [hlook]
    exact ⟨List.mem_reverse.mp hmem, hle,
      fun u hu hule => hgr u (List.mem_reverse.mpr hu) hule⟩

/-- Witness for C1, on the design document's scenario table: `xp = 1000`
yields rank `D`, `xp = 999` yields the base rank, and the general theorem
applies at `xp = 1000`. -/
theorem rankLookup_greatest_threshold_witness :
    rankLookup specTierTable 1000 = ⟨"D", 1000⟩ ∧
    rankLookup specTierTable 999 = ⟨"base", 0⟩ ∧
    (rankLookup specTierTable 1000 ∈ specTierTable ∧
      (rankLookup specTierTable 1000).minXp ≤ 1000 ∧
      ∀ u ∈ specTierTable, u.minXp ≤ 1000 →
        u.minXp ≤ (rankLookup specTierTable 1000).minXp) :=
  ⟨by decide, by decide,
    rankLookup_greatest_threshold specTierTable (by decide)
      ⟨"base", 0⟩ (by decide) (by decide) 1000 (by decide)⟩

/-- C10: `getLevel` is total on all integer XP values, negative ones
included: it always returns a member of the table, and when no threshold is
`≤ xp` (in particular for negative XP) it falls back to the base tier
`⟨E, 0⟩`. -/
theorem getLevel_total (xp : ℤ) :
    getLevel xp ∈ levels ∧ (xp < 0 → getLevel xp = ⟨"E", 0⟩) := by
  have hnonneg : ∀ u ∈ levels, (0 : ℤ) ≤ u.minXp := by decide
  cases hfind : levels.reverse.find? (fun l => decide (l.minXp ≤ xp)) with
  | none =>
    have hlook : getLevel xp = ⟨"E", 0⟩ := by
      simp only [getLevel, rankLookup, hfind, Option.getD_none]
      rfl
    rw [hlook]
    exact ⟨by decide, fun _ => rfl⟩
  | some t =>
    have hmem : t ∈ levels := List.mem_reverse.mp (List.mem_of_find?_eq_some hfind)
    have hlook : getLevel xp = t := by simp [getLevel, rankLookup, hfind]
    rw [hlook]
    refine ⟨hmem, fun hneg => ?_⟩
    exfalso
    have hple : t.minXp ≤ xp := by
      have := List.find?_some hfind
      simpa using this
    exact absurd (lt_of_le_of_lt hple hneg) (not_lt.mpr (hnonneg t hmem))

/-- Witness for C10: at `xp = -1` the lookup returns the base tier `⟨E, 0⟩`
and the result is a member of the table. -/
theorem getLevel_total_witness :
    getLevel (-1) ∈ levels ∧ getLevel (-1) = ⟨"E", 0⟩ :=
  ⟨(getLevel_total (-1)).1, (getLevel_total (-1)).2 (by decide)⟩

/-! ## XP reward and calorie estimation (client Workout page) -/

/-- Named configuration constant of the design: the minimum XP floor. -/
def minimumXpFloor : ℤ := 5

/-- Named configuration constant of the design: the XP divisor. -/
def xpDivisor : ℚ := 2

/-- The XP reward computation of the Workout page:
`Math.max(5, Math.round(calories / 2))`. -/
def computeXpReward (calories : ℤ) : ℤ := max 5 (jround ((calories : ℚ) / 2))

/-- C2: the XP reward equals `max(minimumXpFloor, round(calories / xpDivisor))`
with floor 5 and divisor 2, and for every `calories ≥ 0` the reward is at
least 5. -/
theorem computeXpReward_floor (calories : ℤ) :
    computeXpReward calories =
      max minimumXpFloor (jround ((calories : ℚ) / xpDivisor)) ∧
    (0 ≤ calories → 5 ≤ computeXpReward calories) :=
  ⟨rfl, fun _ => le_max_left _ _⟩

/-- Witness for C2 at `calories = 7`: the reward there is
`max(5, round(3.5)) = 5 ≥ 5`. -/
theorem computeXpReward_floor_witness :
    computeXpReward 7 = max minimumXpFloor (jround ((7 : ℚ) / xpDivisor)) ∧
    5 ≤ computeXpReward 7 :=
  ⟨(computeXpReward_floor 7).1, (computeXpReward_floor 7).2 (by decide)⟩

/-- Workout intensity levels. -/
inductive Intensity where
  | low
  | moderate
  | high
deriving DecidableEq, Repr

/-- The intensity modifier of `calculateEstimatedCalories`:
`intensity === 'high' ? 1.2 : intensity === 'low' ? 0.8 : 1`. -/
def intensityMod : Intensity → ℚ
  | .high => 1.2
  | .low => 0.8
  | .moderate => 1

/-- Duration-mode branch of `calculateEstimatedCalories`:
`Math.round(caloriesPer30Min * (duration / 30) * intensityMod)`. -/
def calculateEstimatedCaloriesTime
    (caloriesPer30Min durationMinutes : ℚ) (i : Intensity) : ℤ :=
  jround (caloriesPer30Min * (durationMinutes / 30) * intensityMod i)

/-- Count-mode branch of `calculateEstimatedCalories`:
`totalReps = reps * sets;`
`Math.round(caloriesPerRep * totalReps * intensityMod * (userWeight / 70))`. -/
def calculateEstimatedCaloriesCount
    (caloriesPerRep : ℚ) (reps sets : ℕ) (i : Intensity) (userWeight : ℚ) : ℤ :=
  jround (caloriesPerRep * ((reps : ℚ) * sets) * intensityMod i * (userWeight / 70))

/-- The spec's reference weight constant. -/
def referenceWeightKg : ℚ := 70

/-- The spec's intensity factor table: low = 0.8, moderate = 1.0, high = 1.2. -/
def intensityFactorSpec : Intensity → ℚ
  | .low => 0.8
  | .moderate => 1.0
  | .high => 1.2

/-- The spec's duration-mode formula, written from the spec's words:
`calories = ratePer30Min * (durationMinutes / 30) * intensityFactor`,
rounded to nearest. -/
def durationModeSpecFormula
    (ratePer30Min durationMinutes : ℚ) (i : Intensity) : ℤ :=
  jround (ratePer30Min * (durationMinutes / 30) * intensityFactorSpec i)

/-- The spec's count-mode formula, written from the spec's words:
`calories = caloriesPerRep * reps * sets * intensityFactor *
(userWeightKg / referenceWeightKg)`, rounded to nearest. -/
def countModeSpecFormula
    (caloriesPerRep : ℚ) (reps sets : ℕ) (i : Intensity) (userWeightKg : ℚ) : ℤ :=
  jround (caloriesPerRep * (reps : ℚ) * (sets : ℚ) * intensityFactorSpec i *
    (userWeightKg / referenceWeightKg))

/-- C3: every duration-mode estimate equals the spec formula
`ratePer30Min * (durationMinutes / 30) * intensityFactor` rounded to
nearest, the intensity factors are exactly 0.8 / 1.0 / 1.2, and the
scenario `rate = 300`, `duration = 45`, `intensity = high` yields 540. -/
theorem calculateEstimatedCaloriesTime_spec :
    (∀ (rate dur : ℚ) (i : Intensity),
      calculateEstimatedCaloriesTime rate dur i = durationModeSpecFormula rate dur i) ∧
    (intensityMod .low = 0.8 ∧ intensityMod .moderate = 1.0 ∧ intensityMod .high = 1.2) ∧
    calculateEstimatedCaloriesTime 300 45 .high = 540 := by
  refine ⟨fun rate dur i => ?_, ⟨rfl, by norm_num [intensityMod], rfl⟩, ?_⟩
  · unfold calculateEstimatedCaloriesTime durationModeSpecFormula jround
    cases i <;> · simp only [intensityMod, intensityFactorSpec]; try norm_num
  · show jround (300 * ((45 : ℚ) / 30) * intensityMod .high) = 540
    rw [jround, intensityMod]
    norm_num

/-- C4: every count-mode estimate equals the spec formula
`caloriesPerRep * reps * sets * intensityFactor *
(userWeightKg / referenceWeightKg)` rounded to nearest, with reference
weight 70, and the scenario `caloriesPerRep = 0.3`, `reps = 20`, `sets = 3`,
`intensity = moderate`, `userWeightKg = 70` yields 18. -/
theorem calculateEstimatedCaloriesCount_spec :
    (∀ (cpr : ℚ) (reps sets : ℕ) (i : Intensity) (w : ℚ),
      calculateEstimatedCaloriesCount cpr reps sets i w =
        countModeSpecFormula cpr reps sets i w) ∧
    referenceWeightKg = 70 ∧
    calculateEstimatedCaloriesCount 0.3 20 3 .moderate 70 = 18 := by
  refine ⟨fun cpr reps sets i w => ?_, rfl, ?_⟩
  · unfold calculateEstimatedCaloriesCount countModeSpecFormula referenceWeightKg jround
    cases i <;> simp only [intensityMod, intensityFactorSpec] <;> norm_num <;>
      · congr 1; ring
  · show jround ((0.3 : ℚ) * ((20 : ℕ) * (3 : ℕ) : ℚ) * intensityMod .moderate * (70 / 70)) = 18
    rw [jround, intensityMod]
    norm_num

/-! ## Streak tracker -/

/-- Streak state: `{ streakCount, lastActivityDate }`, days as calendar-day
numbers. -/
structure StreakState where
  streakCount : ℕ
  lastActivityDate : Option ℤ
deriving DecidableEq, Repr

/-- Modelled from the spec: the write-path streak transition `applyStreak`
of §4.3 on a new qualifying activity at day `D`; the server workout-creation
route (`server/routes/workouts.js`) implementing it is not among the
sources. -/
def applyStreak (lastActivityDate : Option ℤ) (streakCount : ℕ) (d : ℤ) :
    StreakState :=
  match lastActivityDate with
  | none => ⟨1, some d⟩
  | some l =>
    if d = l then ⟨streakCount, some l⟩
    else if d - l = 1 then ⟨streakCount + 1, some d⟩
    else ⟨1, some d⟩

/-- C5: the write-path streak transition satisfies all four cases: null
last date initializes to 1; same day leaves the state unchanged; a gap of
exactly one day increments; a gap greater than one day resets to 1 (never
to 0); in every non-same-day case the last activity date becomes `D`. -/
theorem applyStreak_cases (s : ℕ) (d l : ℤ) :
    applyStreak none s d = ⟨1, some d⟩ ∧
    (d = l → applyStreak (some l) s d = ⟨s, some l⟩) ∧
    (d - l = 1 → applyStreak (some l) s d = ⟨s + 1, some d⟩) ∧
    (d - l > 1 → applyStreak (some l) s d = ⟨1, some d⟩) := by
  refine ⟨rfl, fun h => ?_, fun h => ?_, fun h => ?_⟩
  · simp [applyStreak, h]
  · have hne : d ≠ l := by omega
    simp [applyStreak, hne, h]
  · have hne : d ≠ l := by omega
    have hne1 : d - l ≠ 1 := by omega
    simp [applyStreak, hne, hne1]

/-- Witness for C5: the four cases at concrete days (streak 2, day 5
against no date, day 5, day 4 and day 2 respectively). -/
theorem applyStreak_cases_witness :
    applyStreak none 2 5 = ⟨1, some 5⟩ ∧
    applyStreak (some 5) 2 5 = ⟨2, some 5⟩ ∧
    applyStreak (some 4) 2 5 = ⟨3, some 5⟩ ∧
    applyStreak (some 2) 2 5 = ⟨1, some 5⟩ :=
  ⟨(applyStreak_cases 2 5 5).1, (applyStreak_cases 2 5 5).2.1 rfl,
    (applyStreak_cases 2 5 4).2.2.1 (by decide),
    (applyStreak_cases 2 5 2).2.2.2 (by decide)⟩

/-- The login-time streak correction of `server/routes/auth.js`
(`POST /login`): with a non-null `lastWorkoutDate`, if
`diffDays = floor((today - lastWorkout) / day) > 1` the streak is set to 0,
otherwise (and when the date is null) the streak is untouched. Dates are
midnight-normalized, so the difference is a whole number of days. -/
def loginStreakCorrection (lastWorkoutDate : Option ℤ) (streak : ℕ)
    (today : ℤ) : ℕ :=
  match lastWorkoutDate with
  | none => streak
  | some l => if today - l > 1 then 0 else streak

/-- C6: on a read with no new activity (login), a gap of more than one day
resets the streak to 0; and the write-path transition never produces 0 — its
result is 0 only in the unchanged same-day case starting from 0. -/
theorem loginStreakCorrection_resets (l : ℤ) (s : ℕ) (today : ℤ) :
    (today - l > 1 → loginStreakCorrection (some l) s today = 0) ∧
    (∀ (last : Option ℤ) (d : ℤ), (applyStreak last s d).streakCount = 0 →
      last = some d ∧ s = 0) := by
  constructor
  · intro h
    simp [loginStreakCorrection, h]
  · intro last d h
    match last with
    | none => simp [applyStreak] at h
    | some l' =>
      by_cases he : d = l'
      · subst he
        simp [applyStreak] at h
        exact ⟨rfl, h⟩
      · by_cases h1 : d - l' = 1
        · simp [applyStreak, he, h1] at h
        · simp [applyStreak, he, h1] at h

/-- Witness for C6: logging in on day 3 with last workout on day 0 and
streak 5 resets the streak to 0; the write path with streak 0 on a same-day
repeat is the only way it can show 0. -/
theorem loginStreakCorrection_resets_witness :
    loginStreakCorrection (some 0) 5 3 = 0 ∧
    (some (3 : ℤ) = some 3 ∧ (0 : ℕ) = 0) :=
  ⟨(loginStreakCorrection_resets 0 5 3).1 (by decide),
    (loginStreakCorrection_resets 0 0 3).2 (some 3) 3 (by decide)⟩

/-! ## Weekly aggregation (client Dashboard page, `weeklyChartData`) -/

/-- A meal record as seen by `weeklyChartData`: its local calendar weekday
`new Date(m.date).getDay()` (0 = Sunday … 6 = Saturday) and its calories. -/
structure MealEntry where
  weekday : Fin 7
  calories : ℤ
deriving DecidableEq, Repr

/-- The per-slot intake lookup of `weeklyChartData`: the first meal record
whose weekday equals the slot's index, `mealData?.calories || 0`. -/
def dayIntake (meals : List MealEntry) (j : ℕ) : ℤ :=
  ((meals.find? (fun m => decide (m.weekday.val = j))).map MealEntry.calories).getD 0

/-- The intake column of `weeklyChartData`: slots Mon..Sun at indices 0..6,
the slot at index `idx` matching records whose `getDay()` equals the
adjusted index `(idx + 1) % 7`. -/
def weeklyIntakes (meals : List MealEntry) : List ℤ :=
  (List.range 7).map (fun idx => dayIntake meals ((idx + 1) % 7))

/-- Unfolding `dayIntake` over a cons cell. -/
theorem dayIntake_cons (m : MealEntry) (rest : List MealEntry) (j : ℕ) :
    dayIntake (m :: rest) j =
      if m.weekday.val = j then m.calories else dayIntake rest j := by
  by_cases h : m.weekday.val = j
  · rw [dayIntake, List.find?_cons_of_pos _ (by simpa using h), if_pos h]
    rfl
  · rw [dayIntake, List.find?_cons_of_neg _ (by simpa using h), if_neg h]
    rfl

/-- Summing the slot lookups over a duplicate-free index list: a record in
front whose weekday occurs among the indices and nowhere in the tail
contributes its calories exactly once. -/
theorem sum_dayIntake_cons (m : MealEntry) (rest : List MealEntry)
    (h0 : dayIntake rest m.weekday.val = 0) :
    ∀ ns : List ℕ, ns.Nodup → m.weekday.val ∈ ns →
    ((ns.map (dayIntake (m :: rest))).sum =
      m.calories + (ns.map (dayIntake rest)).sum) := by
  intro ns
  induction ns with
  | nil => intro _ hmem; cases hmem
  | cons n ns ih =>
    intro hnd hmem
    rw [List.nodup_cons] at hnd
    simp only [List.map_cons, List.sum_cons]
    by_cases hn : m.weekday.val = n
    · have htail : ns.map (dayIntake (m :: rest)) = ns.map (dayIntake rest) := by
        apply List.map_congr_left
        intro j hj
        rw [dayIntake_cons, if_neg]
        intro hc
        exact hnd.1 ((hc.symm.trans hn) ▸ hj)
      rw [htail, dayIntake_cons, if_pos hn, ← hn, h0]
      ring
    · have hmem' : m.weekday.val ∈ ns := by
        rcases List.mem_cons.mp hmem with h | h
        · exact absurd h hn
        · exact h
      rw [dayIntake_cons, if_neg hn, ih hnd.2 hmem']
      ring

/-- With at most one record per weekday, summing the slot lookups over all
seven weekday indices counts every record exactly once. -/
theorem sum_dayIntake_range7 (meals : List MealEntry)
    (hdistinct : meals.Pairwise (fun a b => a.weekday ≠ b.weekday)) :
    ((List.range 7).map (dayIntake meals)).sum =
      (meals.map MealEntry.calories).sum := by
  induction meals with
  | nil =>
    decide
  | cons m rest ih =>
    rw [List.pairwise_cons] at hdistinct
    have h0 : dayIntake rest m.weekday.val = 0 := by
      have hnone : rest.find? (fun u => decide (u.weekday.val = m.weekday.val)) = none := by
        rw [List.find?_eq_none]
        intro u hu
        simp only [decide_eq_true_eq]
        intro hvv
        exact hdistinct.1 u hu (Fin.ext hvv).symm
      rw [dayIntake, hnone]
      rfl
    rw [sum_dayIntake_cons m rest h0 (List.range 7) (List.nodup_range 7)
      (List.mem_range.mpr m.weekday.isLt), ih hdistinct.2]
    simp

/-- C7 counterexample record set: two meal records on the same weekday. -/
def duplicateDayMeals : List MealEntry := [⟨1, 100⟩, ⟨1, 200⟩]

/-- C7 counterexample: with two meal records on the same calendar day, the
`find`-based bucketing of `weeklyChartData` counts only the first record:
the per-day sums add to 100 while the records' calories add to 300, so the
claimed partition equality fails. -/
theorem weeklyIntakes_not_partition :
    (weeklyIntakes duplicateDayMeals).sum ≠
      (duplicateDayMeals.map MealEntry.calories).sum := by
  decide

/-- C7 amended: when the records in the 7-day window lie on pairwise
distinct calendar days (at most one record per weekday slot, as a 7-day
window of per-day aggregates provides), every record is bucketed into
exactly one of the 7 slots and the per-day intakes across all 7 buckets sum
to the total calories over all records, none double-counted or dropped. -/
theorem weeklyIntakes_partition (meals : List MealEntry)
    (hdistinct : meals.Pairwise (fun a b => a.weekday ≠ b.weekday)) :
    (weeklyIntakes meals).sum = (meals.map MealEntry.calories).sum := by
  have hexp : weeklyIntakes meals =
      [dayIntake meals 1, dayIntake meals 2, dayIntake meals 3,
       dayIntake meals 4, dayIntake meals 5, dayIntake meals 6,
       dayIntake meals 0] := rfl
  have hexp' : (List.range 7).map (dayIntake meals) =
      [dayIntake meals 0, dayIntake meals 1, dayIntake meals 2,
       dayIntake meals 3, dayIntake meals 4, dayIntake meals 5,
       dayIntake meals 6] := rfl
  have hsum := sum_dayIntake_range7 meals hdistinct
  rw [hexp'] at hsum
  rw [hexp, ← hsum]
  simp only [List.sum_cons, List.sum_nil]
  ring

/-- Witness for C7 (amended): three records on distinct weekdays sum to 600
through the buckets, matching the records' total. -/
theorem weeklyIntakes_partition_witness :
    (weeklyIntakes [⟨1, 100⟩, ⟨2, 200⟩, ⟨0, 300⟩]).sum =
      (([⟨1, 100⟩, ⟨2, 200⟩, ⟨0, 300⟩] : List MealEntry).map
        MealEntry.calories).sum :=
  weeklyIntakes_partition [⟨1, 100⟩, ⟨2, 200⟩, ⟨0, 300⟩] (by decide)

/-! ## Activity insights (client Dashboard page, `getActivityInsights`) -/

/-- Insight severity: the `type` field of a pushed insight. -/
inductive Severity where
  | success
  | info
  | warning
deriving DecidableEq, Repr

/-- The text of a pushed insight, with the numbers interpolated into the
message. -/
inductive InsightText where
  | goalCrushed (burned : ℤ)
  | keepGoing (remaining : ℤ)
  | noWorkoutToday
  | surplusWarning (balance : ℤ)
  | deficitSuccess (amount : ℤ)
  | weeklyExcellent (workouts : ℤ)
  | weeklyGood (workouts : ℤ)
  | streakFire (streak : ℤ)
deriving DecidableEq, Repr

/-- One insight: `{ type, text }`. -/
structure Insight where
  type : Severity
  text : InsightText
deriving DecidableEq, Repr

/-- Category 1 of `getActivityInsights` — today's goal progress:
`burned ≥ goal` → success; `0 < burned` → info with the remaining amount;
otherwise → the no-workout-today warning. -/
def todayProgressInsights (dailyGoal todayBurned : ℤ) : List Insight :=
  if todayBurned ≥ dailyGoal then [⟨.success, .goalCrushed todayBurned⟩]
  else if todayBurned > 0 then [⟨.info, .keepGoing (dailyGoal - todayBurned)⟩]
  else [⟨.warning, .noWorkoutToday⟩]

/-- Category 2 of `getActivityInsights` — calorie balance, gated on
`todayIntake > 0 && todayBurned > 0`: surplus over 500 → warning; balance
below −300 → success; otherwise nothing. -/
def calorieBalanceInsights (todayIntake todayBurned : ℤ) : List Insight :=
  if todayIntake > 0 ∧ todayBurned > 0 then
    if todayIntake - todayBurned > 500 then
      [⟨.warning, .surplusWarning (todayIntake - todayBurned)⟩]
    else if todayIntake - todayBurned < -300 then
      [⟨.success, .deficitSuccess |todayIntake - todayBurned|⟩]
    else []
  else []

/-- Category 3 of `getActivityInsights` — weekly consistency:
`totalWorkouts ≥ 5` → success; `totalWorkouts ≥ 3` → info; otherwise
nothing. -/
def weeklyConsistencyInsights (totalWorkouts : ℤ) : List Insight :=
  if totalWorkouts ≥ 5 then [⟨.success, .weeklyExcellent totalWorkouts⟩]
  else if totalWorkouts ≥ 3 then [⟨.info, .weeklyGood totalWorkouts⟩]
  else []

/-- Category 4 of `getActivityInsights` — streak: `streak ≥ 7` → success;
otherwise nothing. -/
def streakInsights (streak : ℤ) : List Insight :=
  if streak ≥ 7 then [⟨.success, .streakFire streak⟩] else []

/-- `getActivityInsights` of the Dashboard page: the four categories are
evaluated independently, in order, each pushing its insights onto the list.
(`dailyCalorieGoal` is read by the source but used by no category.) -/
def getActivityInsights (dailyBurnGoal dailyCalorieGoal todayBurned
    todayIntake totalWorkouts streak : ℤ) : List Insight :=
  todayProgressInsights dailyBurnGoal todayBurned ++
  calorieBalanceInsights todayIntake todayBurned ++
  weeklyConsistencyInsights totalWorkouts ++
  streakInsights streak

/-- C8: a category whose condition is not met emits nothing, the categories
being independent; and on the scenario input (defaults `dailyBurnGoal =
500`, `dailyCalorieGoal = 2000`, today burned 0, intake 0, 2 weekly
workouts, streak 3) exactly one insight is produced: the no-workout-today
warning. -/
theorem getActivityInsights_silent_and_scenario :
    getActivityInsights 500 2000 0 0 2 3 = [⟨.warning, .noWorkoutToday⟩] ∧
    (∀ todayIntake todayBurned : ℤ, ¬(todayIntake > 0 ∧ todayBurned > 0) →
      calorieBalanceInsights todayIntake todayBurned = []) ∧
    (∀ totalWorkouts : ℤ, totalWorkouts < 3 →
      weeklyConsistencyInsights totalWorkouts = []) ∧
    (∀ streak : ℤ, streak < 7 → streakInsights streak = []) := by
  refine ⟨by decide, fun i b h => ?_, fun w h => ?_, fun s h => ?_⟩
  · simp [calorieBalanceInsights, h]
  · have h5 : ¬(w ≥ 5) := by omega
    have h3 : ¬(w ≥ 3) := by omega
    simp [weeklyConsistencyInsights, h5, h3]
  · have h7 : ¬(s ≥ 7) := by omega
    simp [streakInsights, h7]

/-- Witness for C8: the scenario output, and the silence of the balance,
weekly and streak categories at the scenario's inputs. -/
theorem getActivityInsights_silent_and_scenario_witness :
    getActivityInsights 500 2000 0 0 2 3 = [⟨.warning, .noWorkoutToday⟩] ∧
    calorieBalanceInsights 0 0 = [] ∧
    weeklyConsistencyInsights 2 = [] ∧
    streakInsights 3 = [] :=
  ⟨getActivityInsights_silent_and_scenario.1,
    getActivityInsights_silent_and_scenario.2.1 0 0 (by decide),
    getActivityInsights_silent_and_scenario.2.2.1 2 (by decide),
    getActivityInsights_silent_and_scenario.2.2.2 3 (by decide)⟩

/-! ## Validating calorie estimator (spec §4.1 / §7) -/

/-- Input mode of a workout type: duration-based or count-based. -/
inductive InputMode where
  | duration
  | count
deriving DecidableEq, Repr

/-- An entry of the Workout Type Catalog: activity type name, input mode
and calorie-rate coefficients. -/
structure WorkoutType where
  activity : String
  mode : InputMode
  caloriesPer30Min : ℚ
  caloriesPerRep : ℚ
deriving DecidableEq, Repr

/-- The estimator's input record: activity type, the optional
mode-specific fields, intensity and user weight. -/
structure EstimateInput where
  activityType : String
  durationMinutes : Option ℚ
  reps : Option ℕ
  sets : Option ℕ
  intensity : Intensity
  userWeightKg : ℚ
deriving DecidableEq, Repr

/-- The estimator's error kinds: catalog lookup miss and missing required
fields. -/
inductive EstimateError where
  | unknownActivity
  | invalidInput
deriving DecidableEq, Repr

/-- Modelled from the spec: `estimateCalories(input) -> integer | Error` of
§4.1 and §7 — the validating server-side estimator
(`server/routes/workouts.js`) is not among the sources; only the client
preview `calculateEstimatedCalories` is. Unknown `activityType` yields the
Unknown Activity error; a missing required field for the catalog-declared
input mode (`durationMinutes` for duration mode, `reps` and `sets` for
count mode) yields the Invalid Input error; otherwise the mode's formula is
applied. -/
def estimateCalories (catalog : List WorkoutType) (inp : EstimateInput) :
    Except EstimateError ℤ :=
  match catalog.find? (fun t => decide (t.activity = inp.activityType)) with
  | none => .error .unknownActivity
  | some t =>
    match t.mode with
    | .duration =>
      match inp.durationMinutes with
      | none => .error .invalidInput
      | some d => .ok (calculateEstimatedCaloriesTime t.caloriesPer30Min d inp.intensity)
    | .count =>
      match inp.reps, inp.sets with
      | some r, some s =>
        .ok (calculateEstimatedCaloriesCount t.caloriesPerRep r s inp.intensity
          inp.userWeightKg)
      | _, _ => .error .invalidInput

/-- C9: the estimator fails with the Unknown Activity error on every input
whose activity type misses the catalog, and with the Invalid Input error on
every input missing a required field for its catalog-declared mode; in
those cases it returns the error and never a numeric estimate. -/
theorem estimateCalories_errors (catalog : List WorkoutType)
    (inp : EstimateInput) :
    (catalog.find? (fun t => decide (t.activity = inp.activityType)) = none →
      estimateCalories catalog inp = .error .unknownActivity) ∧
    (∀ t, catalog.find? (fun t => decide (t.activity = inp.activityType)) = some t →
      t.mode = .duration → inp.durationMinutes = none →
      estimateCalories catalog inp = .error .invalidInput) ∧
    (∀ t, catalog.find? (fun t => decide (t.activity = inp.activityType)) = some t →
      t.mode = .count → (inp.reps = none ∨ inp.sets = none) →
      estimateCalories catalog inp = .error .invalidInput) ∧
    (∀ e n, estimateCalories catalog inp = .error e →
      estimateCalories catalog inp ≠ .ok n) := by
  refine ⟨fun hfind => ?_, fun t hfind hmode hdur => ?_,
    fun t hfind hmode hmiss => ?_, fun e n herr hok => ?_⟩
  · rw [estimateCalories, hfind]
  · rw [estimateCalories, hfind]
    dsimp only
    rw [hmode, hdur]
  · rw [estimateCalories, hfind]
    dsimp only
    rw [hmode]
    rcases hmiss with h | h
    · rw [h]
    · rw [h]
      cases inp.reps <;> rfl
  · rw [herr] at hok
    exact Except.noConfusion hok

/-- Witness for C9 on a one-entry catalog: an unknown activity type errors
with Unknown Activity; a duration-mode input without a duration and a
count-mode input without reps error with Invalid Input; an error result is
not the numeric result 0. -/
theorem estimateCalories_errors_witness :
    estimateCalories [⟨"running", .duration, 300, 0⟩]
        ⟨"yoga", some 30, none, none, .moderate, 70⟩ =
      .error .unknownActivity ∧
    estimateCalories [⟨"running", .duration, 300, 0⟩]
        ⟨"running", none, none, none, .moderate, 70⟩ =
      .error .invalidInput ∧
    estimateCalories [⟨"pushups", .count, 0, 2⟩]
        ⟨"pushups", none, none, some 3, .moderate, 70⟩ =
      .error .invalidInput ∧
    estimateCalories [⟨"running", .duration, 300, 0⟩]
        ⟨"yoga", some 30, none, none, .moderate, 70⟩ ≠
      .ok 0 :=
  ⟨(estimateCalories_errors [⟨"running", .duration, 300, 0⟩]
      ⟨"yoga", some 30, none, none, .moderate, 70⟩).1 (by decide),
    (estimateCalories_errors [⟨"running", .duration, 300, 0⟩]
      ⟨"running", none, none, none, .moderate, 70⟩).2.1
      ⟨"running", .duration, 300, 0⟩ (by decide) rfl rfl,
    (estimateCalories_errors [⟨"pushups", .count, 0, 2⟩]
      ⟨"pushups", none, none, some 3, .moderate, 70⟩).2.2.1
      ⟨"pushups", .count, 0, 2⟩ (by decide) rfl (Or.inl rfl),
    (estimateCalories_errors [⟨"running", .duration, 300, 0⟩]
      ⟨"yoga", some 30, none, none, .moderate, 70⟩).2.2.2
      .unknownActivity 0
      ((estimateCalories_errors [⟨"running", .duration, 300, 0⟩]
        ⟨"yoga", some 30, none, none, .moderate, 70⟩).1 (by decide))⟩
